import Mathlib

/-!
Verification development for the Travel Route Recorder application
(an Angular component `AppComponent` plus a `GeminiService`).

The definitions below are a shallow embedding of the TypeScript source:
pure computations become Lean functions, the component's mutable signal
state becomes an explicit `AppState` record threaded through the action
handlers, JavaScript numbers become `Rat`, nullable values become
`Option`, and the outcomes of external asynchronous calls (the Gemini
SDK, `FileReader`, `localStorage` writes) are passed in as explicit
parameters so that each user action is a total function on states.
-/

namespace TravelRoute

/-- Map style enum: `'standard' | 'vintage' | 'neon'`. -/
inductive MapStyle where
  | standard
  | vintage
  | neon
deriving DecidableEq

/-- Map height enum: `'small' | 'medium' | 'large'`. -/
inductive MapHeight where
  | small
  | medium
  | large
deriving DecidableEq

/-- `LocationCoordinate` from `gemini.service.ts`: one entry of the
Coordinate Resolver response, with nullable `lat`/`lng`. -/
structure LocationCoordinate where
  name : String
  lat : Option Rat
  lng : Option Rat
deriving DecidableEq

/-- `ValidCoordinate` from `app.component.ts`: a successfully resolved stop. -/
structure ValidCoordinate where
  name : String
  lat : Rat
  lng : Rat
deriving DecidableEq

/-- `Stamp` record from `app.component.ts`. -/
structure Stamp where
  id : String
  name : String
  rotation : Int
  color : String
  date : String
  time : String
  imageUrl : Option String
  description : Option String
  selected : Bool
deriving DecidableEq

/-- The optional `styleConfig` member of `SavedTrip`. -/
structure TripStyleConfig where
  style : MapStyle
  color : String
  weight : Rat
  customIconUrl : Option String
  mapHeight : Option MapHeight
deriving DecidableEq

/-- `SavedTrip` record from `app.component.ts`. -/
structure SavedTrip where
  id : String
  name : String
  date : Nat
  locations : String
  coordinates : List ValidCoordinate
  stamps : List Stamp
  styleConfig : Option TripStyleConfig
deriving DecidableEq

/-- The mutable state of `AppComponent`: every signal becomes a field.
`storage` models the `localStorage` value under the key
`travel_route_trips` (`none` = key absent); `alerts` accumulates the
strings passed to `alert(...)` so that user-facing warnings are
observable. -/
structure AppState where
  locationInput : String
  isLoading : Bool
  isExporting : Bool
  isGeneratingIcon : Bool
  isGeneratingStamp : Bool
  mapStyle : MapStyle
  routeColor : String
  routeWeight : Rat
  customIconUrl : Option String
  mapHeight : MapHeight
  routeCoordinates : List ValidCoordinate
  missingLocations : List String
  stamps : List Stamp
  statusMessage : String
  savedTrips : List SavedTrip
  tripToDelete : Option String
  storage : Option (List SavedTrip)
  alerts : List String
deriving DecidableEq

/-! ## Route generation: input parsing and coordinate classification
(`AppComponent.onGenerateRoute`, steps 1 and 3). -/

/-- Character-level model of JavaScript `rawInput.split(',')`. -/
def splitOnComma : List Char → List (List Char)
  | [] => [[]]
  | c :: rest =>
    let r := splitOnComma rest
    if c = ',' then [] :: r
    else (c :: r.headD []) :: r.tail

/-- Character-level model of JavaScript `String.prototype.trim`. -/
def trimChars (cs : List Char) : List Char :=
  ((cs.dropWhile Char.isWhitespace).reverse.dropWhile Char.isWhitespace).reverse

/-- Step 1 of `onGenerateRoute`:
`rawInput.split(',').map(s => s.trim()).filter(s => s.length > 0)`. -/
def parseLocations (rawInput : String) : List String :=
  ((splitOnComma rawInput.data).map (fun cs => String.mk (trimChars cs))).filter
    (fun s => s.length > 0)

/-- The guard of step 3 of `onGenerateRoute`:
`item.lat !== null && item.lng !== null && item.lat !== 0 && item.lng !== 0`. -/
def isValidEntry (item : LocationCoordinate) : Bool :=
  match item.lat, item.lng with
  | some la, some ln => decide (la ≠ 0) && decide (ln ≠ 0)
  | _, _ => false

/-- The object pushed on the valid branch:
`{ name: item.name, lat: item.lat, lng: item.lng }` (both known non-null). -/
def toValidCoord (item : LocationCoordinate) : ValidCoordinate :=
  { name := item.name, lat := item.lat.getD 0, lng := item.lng.getD 0 }

/-- The name pushed on the missing branch: `item.name || locations[index]`
(JavaScript falsy test on the string). -/
def missingNameOf (locations : List String) (index : Nat) (item : LocationCoordinate) :
    String :=
  if item.name = "" then locations.getD index "" else item.name

/-- The indexed `rawCoords.forEach((item, index) => ...)` loop of
`onGenerateRoute`, accumulating `validCoords` and `missing` in order. -/
def classifyAux (locations : List String) : Nat → List LocationCoordinate →
    List ValidCoordinate × List String
  | _, [] => ([], [])
  | i, item :: rest =>
    let r := classifyAux locations (i + 1) rest
    if isValidEntry item then (toValidCoord item :: r.1, r.2)
    else (r.1, missingNameOf locations i item :: r.2)

/-- Step 3 of `onGenerateRoute`: partition the resolver response into
`validCoords` and `missing`. -/
def classifyResults (locations : List String) (rawCoords : List LocationCoordinate) :
    List ValidCoordinate × List String :=
  classifyAux locations 0 rawCoords

/-- Follows the spec's words (section 4.1 and section 8): an entry is a
valid coordinate exactly when `lat` and `lng` are both non-null and the
pair is not exactly `(0,0)`. Stated for comparison with `isValidEntry`,
which is translated from the source. -/
def specValidCoordinate (item : LocationCoordinate) : Bool :=
  match item.lat, item.lng with
  | some la, some ln => !(decide (la = 0) && decide (ln = 0))
  | _, _ => false

/-! ## Default stamp creation (`AppComponent.createVisualStamps`). -/

/-- The fixed palette `colors` of `createVisualStamps`. -/
def stampColors : List String :=
  ["border-indigo-600 text-indigo-800", "border-rose-600 text-rose-800",
   "border-emerald-600 text-emerald-800", "border-amber-600 text-amber-800",
   "border-blue-600 text-blue-800"]

/-- The stamp built for the `i`-th resolved coordinate.  `mkId i` models the
`generateId()` call (`Date.now` + `Math.random`, an external source of
identifiers) and `rng i` models `Math.floor(Math.random() * 30)`, which for
`Math.random() ∈ [0,1)` is a natural number `< 30`; `now` models
`new Date().toLocaleDateString()`. -/
def mkDefaultStamp (mkId : Nat → String) (rng : Nat → Nat) (now : String)
    (i : Nat) (c : ValidCoordinate) : Stamp :=
  { id := "stamp-" ++ mkId i
    name := c.name
    rotation := (rng i : Int) - 15
    color := stampColors.getD (i % stampColors.length) ""
    date := now
    time := "12:00"
    imageUrl := none
    description := some "Classic ink stamp"
    selected := false }

/-- The indexed `coords.map((c, i) => ...)` of `createVisualStamps`. -/
def createVisualStampsAux (mkId : Nat → String) (rng : Nat → Nat) (now : String) :
    Nat → List ValidCoordinate → List Stamp
  | _, [] => []
  | i, c :: rest => mkDefaultStamp mkId rng now i c :: createVisualStampsAux mkId rng now (i + 1) rest

/-- `AppComponent.createVisualStamps`: one default stamp per resolved
coordinate, in order. -/
def createVisualStamps (coords : List ValidCoordinate) (mkId : Nat → String)
    (rng : Nat → Nat) (now : String) : List Stamp :=
  createVisualStampsAux mkId rng now 0 coords

/-! ## Trip persistence (`saveTrip`, `loadTrip`, delete flow). -/

/-- JavaScript `x || undefined` / `x || null` on a nullable string: a falsy
value (null, or the empty string) becomes absent. -/
def truthyOrNone (o : Option String) : Option String :=
  match o with
  | some s => if s = "" then none else some s
  | none => none

/-- The `newTrip` record built by `saveTrip`: a value copy of the current
Route Store and style configuration (`generateId()` and `Date.now()` passed
in as `newId` and `now`). -/
def newTripOf (s : AppState) (newId : String) (now : Nat) : SavedTrip :=
  { id := newId
    name := (s.routeCoordinates.headD { name := "", lat := 0, lng := 0 }).name ++ " Trip"
    date := now
    locations := s.locationInput
    coordinates := s.routeCoordinates
    stamps := s.stamps
    styleConfig := some
      { style := s.mapStyle
        color := s.routeColor
        weight := s.routeWeight
        customIconUrl := truthyOrNone s.customIconUrl
        mapHeight := some s.mapHeight } }

/-- `AppComponent.saveTrip`.  `persistOk` is the outcome of the
`localStorage.setItem` write inside `persistTrips` (`false` = quota
exceeded, the exception caught by the `try`/`catch`).  The in-memory
`savedTrips` list is updated before the write is attempted. -/
def saveTrip (s : AppState) (newId : String) (now : Nat) (persistOk : Bool) : AppState :=
  if s.routeCoordinates.length = 0 then s
  else
    let newTrip := newTripOf s newId now
    let updatedTrips := newTrip :: s.savedTrips
    let s1 := { s with savedTrips := updatedTrips }
    if persistOk then
      { s1 with storage := some updatedTrips
                alerts := s1.alerts ++ ["Trip saved to library!"] }
    else
      { s1 with alerts := s1.alerts ++
          ["Storage Full! This trip is saved for this session, but will disappear on refresh. Please download the Data Config to save it permanently."] }

/-- `AppComponent.loadTrip`: the state once the handler and its deferred
`setTimeout` callback have both run.  Style configuration is restored from
`trip.styleConfig` when present, else the documented defaults; the deferred
callback then replaces coordinates and stamps with value copies and clears
the missing-location list. -/
def loadTrip (s : AppState) (trip : SavedTrip) : AppState :=
  let s1 := { s with
    routeCoordinates := ([] : List ValidCoordinate)
    isGeneratingIcon := false
    isExporting := false
    statusMessage := "Loading " ++ trip.name ++ "..."
    locationInput := trip.locations }
  let s2 :=
    match trip.styleConfig with
    | some cfg =>
        { s1 with
          mapStyle := cfg.style
          routeColor := cfg.color
          routeWeight := cfg.weight
          customIconUrl := truthyOrNone cfg.customIconUrl
          mapHeight := cfg.mapHeight.getD MapHeight.small }
    | none =>
        { s1 with
          mapStyle := MapStyle.standard
          routeColor := "#4f46e5"
          routeWeight := 4
          customIconUrl := none
          mapHeight := MapHeight.small }
  { s2 with
    routeCoordinates := trip.coordinates
    stamps := trip.stamps
    missingLocations := ([] : List String)
    statusMessage := "Loaded trip: " ++ trip.name }

/-- `AppComponent.requestDeleteTrip`: record the pending-deletion id. -/
def requestDeleteTrip (s : AppState) (tripId : String) : AppState :=
  { s with tripToDelete := some tripId }

/-- `AppComponent.confirmDeleteTrip`: the guard `if (!idToDelete) return;`
is a JavaScript falsy test, so the handler is a no-op both when no id is
pending (null) and when the pending id is the empty string; otherwise it
filters that id out of the list, persists the filtered list, and closes the
modal.  (The `persistTrips` write here is not wrapped in a `try`/`catch` in
the source; the model takes it as succeeding.) -/
def confirmDeleteTrip (s : AppState) : AppState :=
  match s.tripToDelete with
  | none => s
  | some idToDelete =>
      if idToDelete = "" then s
      else
        let updatedTrips := s.savedTrips.filter (fun t => t.id != idToDelete)
        { s with savedTrips := updatedTrips
                 storage := some updatedTrips
                 tripToDelete := none }

/-- `AppComponent.cancelDeleteTrip`: clear the pending id. -/
def cancelDeleteTrip (s : AppState) : AppState :=
  { s with tripToDelete := none }

/-! ## Trip import (`AppComponent.onImportTrip`). -/

/-- A parsed JSON document (the result of `JSON.parse`). -/
inductive Json where
  | null : Json
  | bool : Bool → Json
  | num : Rat → Json
  | str : String → Json
  | arr : List Json → Json
  | obj : List (String × Json) → Json

/-- Property access `doc.k`: `none` models JavaScript `undefined` (field
absent, or the document is not an object). -/
def getField (j : Json) (k : String) : Option Json :=
  match j with
  | Json.obj fields => fields.lookup k
  | _ => none

/-- JavaScript truthiness of a possibly-undefined JSON value. -/
def truthyOpt (o : Option Json) : Bool :=
  match o with
  | none => false
  | some Json.null => false
  | some (Json.bool b) => b
  | some (Json.num q) => decide (q ≠ 0)
  | some (Json.str s) => decide (s ≠ "")
  | some (Json.arr _) => true
  | some (Json.obj _) => true

/-- `Array.isArray` on a possibly-undefined JSON value. -/
def isArrayOpt (o : Option Json) : Bool :=
  match o with
  | some (Json.arr _) => true
  | _ => false

/-- The validation gate of `onImportTrip`, line
`if (!trip.coordinates || !Array.isArray(trip.stamps)) throw ...`:
the document is accepted exactly when this is `true`. -/
def importAccepted (doc : Json) : Bool :=
  truthyOpt (getField doc "coordinates") && isArrayOpt (getField doc "stamps")

/-- Follows the spec's words (section 4.4 Import and section 6): both the
`coordinates` and the `stamps` member must be type-checked as sequences.
Stated for comparison with `importAccepted`, which is translated from the
source. -/
def specImportCheck (doc : Json) : Bool :=
  isArrayOpt (getField doc "coordinates") && isArrayOpt (getField doc "stamps")

/-- Coercion of an untyped JSON value to a string field. -/
def asString (o : Option Json) (dflt : String) : String :=
  match o with
  | some (Json.str s) => s
  | _ => dflt

/-- Coercion of an untyped JSON value to a numeric field. -/
def asNum (o : Option Json) (dflt : Rat) : Rat :=
  match o with
  | some (Json.num q) => q
  | _ => dflt

/-- Coercion of an untyped JSON value to an optional string field. -/
def asOptString (o : Option Json) : Option String :=
  match o with
  | some (Json.str s) => some s
  | _ => none

/-- Coercion of an untyped JSON value to a boolean field. -/
def asBool (o : Option Json) (dflt : Bool) : Bool :=
  match o with
  | some (Json.bool b) => b
  | _ => dflt

/-- Reading one coordinate record out of an imported document. -/
def decodeCoord (j : Json) : ValidCoordinate :=
  { name := asString (getField j "name") ""
    lat := asNum (getField j "lat") 0
    lng := asNum (getField j "lng") 0 }

/-- Reading one stamp record out of an imported document. -/
def decodeStamp (j : Json) : Stamp :=
  { id := asString (getField j "id") ""
    name := asString (getField j "name") ""
    rotation := (asNum (getField j "rotation") 0).floor
    color := asString (getField j "color") ""
    date := asString (getField j "date") ""
    time := asString (getField j "time") ""
    imageUrl := asOptString (getField j "imageUrl")
    description := asOptString (getField j "description")
    selected := asBool (getField j "selected") false }

/-- Reading the map style string of an imported document (the source casts
the raw string with `as any`; the model normalizes unknown values to the
standard style). -/
def decodeMapStyle (o : Option Json) : MapStyle :=
  match o with
  | some (Json.str "vintage") => MapStyle.vintage
  | some (Json.str "neon") => MapStyle.neon
  | _ => MapStyle.standard

/-- Reading the optional map height string of an imported document. -/
def decodeMapHeight (o : Option Json) : Option MapHeight :=
  match o with
  | some (Json.str "small") => some MapHeight.small
  | some (Json.str "medium") => some MapHeight.medium
  | some (Json.str "large") => some MapHeight.large
  | _ => none

/-- Reading the optional style configuration of an imported document. -/
def decodeStyleConfig (o : Option Json) : Option TripStyleConfig :=
  match o with
  | some (Json.obj fields) =>
      let j := Json.obj fields
      some
        { style := decodeMapStyle (getField j "style")
          color := asString (getField j "color") ""
          weight := asNum (getField j "weight") 0
          customIconUrl := asOptString (getField j "customIconUrl")
          mapHeight := decodeMapHeight (getField j "mapHeight") }
  | _ => none

/-- The typed view of an accepted import document (the source uses the
parsed object directly as a `SavedTrip`; the model reads each field with
the JavaScript-style coercions above). -/
def decodeTrip (doc : Json) : SavedTrip :=
  { id := asString (getField doc "id") ""
    name := asString (getField doc "name") ""
    date := (asNum (getField doc "date") 0).floor.toNat
    locations := asString (getField doc "locations") ""
    coordinates := (match getField doc "coordinates" with
      | some (Json.arr l) => l.map decodeCoord
      | _ => [])
    stamps := (match getField doc "stamps" with
      | some (Json.arr l) => l.map decodeStamp
      | _ => [])
    styleConfig := decodeStyleConfig (getField doc "styleConfig") }

/-- `AppComponent.onImportTrip`, once the `FileReader` callback has run.
`parsed` is the outcome of `JSON.parse` (`none` = parse exception);
`freshId` models the `generateId()` call used on id collision; `persistOk`
is the outcome of the `localStorage` write (`false` = quota exceeded).
On any exception before the inner `try` — parse failure or the validation
gate — the handler alerts and changes nothing else. -/
def onImportTrip (s : AppState) (parsed : Option Json) (freshId : String)
    (persistOk : Bool) : AppState :=
  match parsed with
  | none =>
      { s with alerts := s.alerts ++ ["Failed to import trip file. Invalid or Corrupt JSON."] }
  | some doc =>
      if importAccepted doc then
        let trip0 := decodeTrip doc
        let trip := if s.savedTrips.any (fun t => t.id == trip0.id) then
            { trip0 with id := freshId }
          else trip0
        let s1 := loadTrip s trip
        if persistOk then
          { s1 with savedTrips := trip :: s1.savedTrips
                    storage := some (trip :: s1.savedTrips) }
        else
          { s1 with alerts := s1.alerts ++ ["Trip loaded! (Storage full - not added to History list)"] }
      else
        { s with alerts := s.alerts ++ ["Failed to import trip file. Invalid or Corrupt JSON."] }

/-! ## Custom icon generation (`GeminiService.generateCustomIcon`,
`AppComponent.onUploadIcon`). -/

/-- `GeminiService.generateCustomIcon`.  `analyzeRes` and `genRes` are the
outcomes of the two awaited SDK calls (image analysis, icon generation).
The surrounding `try`/`catch` turns any failure into the fallback data URI
re-encoding the uploaded image, so the function is total. -/
def generateCustomIcon (base64Image : String) (mimeType : String)
    (analyzeRes : Except String String) (genRes : Except String String) : String :=
  match analyzeRes with
  | Except.error _ => "data:" ++ mimeType ++ ";base64," ++ base64Image
  | Except.ok _ =>
      match genRes with
      | Except.error _ => "data:" ++ mimeType ++ ";base64," ++ base64Image
      | Except.ok bytes => "data:image/jpeg;base64," ++ bytes

/-- Whether `cs` begins with `sep`. -/
def startsWithSeq (sep cs : List Char) : Bool :=
  decide (cs.take sep.length = sep)

/-- Split `cs` at the LAST occurrence of `sep` (the greedy first group of
the regex `^data:(.+);base64,(.+)$` captures up to the last separator). -/
def lastSplitOnSeq (sep : List Char) : List Char → Option (List Char × List Char)
  | [] => none
  | c :: rest =>
      match lastSplitOnSeq sep rest with
      | some (pre, post) => some (c :: pre, post)
      | none =>
          if startsWithSeq sep (c :: rest) then some ([], (c :: rest).drop sep.length)
          else none

/-- The regex match `base64Full.match(/^data:(.+);base64,(.+)$/)` of
`onUploadIcon`: `some (mimeType, base64Data)` on success. -/
def parseDataUrl (s : String) : Option (String × String) :=
  let cs := s.data
  if cs.take 5 = "data:".data then
    match lastSplitOnSeq (";base64,".data) (cs.drop 5) with
    | none => none
    | some (mime, data) =>
        if mime.length = 0 ∨ data.length = 0 then none
        else some (String.mk mime, String.mk data)
  else none

/-- `AppComponent.onUploadIcon`, once the `FileReader` callback has run.
`fileSize` is the chosen file's size, `readerResult` the data URL produced
by `readAsDataURL`, and `analyzeRes`/`genRes` the SDK outcomes passed to
`generateCustomIcon`.  When the regex match fails, the `throw` happens
inside the asynchronous `onload` callback, which the surrounding
`try`/`catch` of the handler does NOT cover: the rejection escapes and the
state is left as it was at that point (busy flag still set). -/
def onUploadIcon (s : AppState) (fileSize : Nat) (readerResult : String)
    (analyzeRes : Except String String) (genRes : Except String String) : AppState :=
  if fileSize > 5 * 1024 * 1024 then
    { s with alerts := s.alerts ++ ["File is too large. Please upload an image under 5MB."] }
  else
    let s1 := { s with isGeneratingIcon := true
                       statusMessage := "Designing your custom icon..." }
    match parseDataUrl readerResult with
    | none => s1
    | some (mime, data) =>
        let newIconUrl := generateCustomIcon data mime analyzeRes genRes
        { s1 with customIconUrl := some newIconUrl
                  statusMessage := "Custom icon applied!"
                  isGeneratingIcon := false }

/-! ## Concrete sample data (used to instantiate the theorems below). -/

/-- Default coordinate value used with `List.getD`. -/
def blankCoord : ValidCoordinate :=
  { name := "", lat := 0, lng := 0 }

/-- Default stamp value used with `List.getD`. -/
def blankStamp : Stamp :=
  { id := "", name := "", rotation := 0, color := "", date := "", time := ""
    imageUrl := none, description := none, selected := false }

/-- A concrete application state: one resolved stop (Paris), one missing
location (Atlantis), one default stamp. -/
def sampleState : AppState :=
  { locationInput := "Paris, Atlantis"
    isLoading := false
    isExporting := false
    isGeneratingIcon := false
    isGeneratingStamp := false
    mapStyle := MapStyle.standard
    routeColor := "#4f46e5"
    routeWeight := 4
    customIconUrl := none
    mapHeight := MapHeight.small
    routeCoordinates := [{ name := "Paris", lat := 48, lng := 2 }]
    missingLocations := ["Atlantis"]
    stamps := [{ id := "stamp-1", name := "Paris", rotation := 3
                 color := "border-indigo-600 text-indigo-800", date := "1/1/2026"
                 time := "12:00", imageUrl := none
                 description := some "Classic ink stamp", selected := false }]
    statusMessage := "Found 1 places. 1 missing."
    savedTrips := []
    tripToDelete := none
    storage := none
    alerts := [] }

/-- A saved trip with id `"a"`, used to exercise the delete flow. -/
def sampleTrip : SavedTrip :=
  { id := "a"
    name := "Paris Trip"
    date := 5
    locations := "Paris, Atlantis"
    coordinates := [{ name := "Paris", lat := 48, lng := 2 }]
    stamps := []
    styleConfig := none }

/-- The sample state with one saved trip in the library. -/
def sampleStateWithTrip : AppState :=
  { sampleState with savedTrips := [sampleTrip] }

/-- A constant id source, standing in for `generateId()` in concrete runs. -/
def constWId : Nat → String := fun _ => "w"

/-- A constant random source: `Math.floor(Math.random() * 30)` always 7. -/
def constRng7 : Nat → Nat := fun _ => 7

/-! ## Helper lemmas. -/

lemma truthyOrNone_of_ne (o : Option String) (h : o ≠ some "") : truthyOrNone o = o := by
  cases o with
  | none => rfl
  | some s =>
      have hs : s ≠ "" := fun hs => h (by rw [hs])
      simp [truthyOrNone, hs]

lemma loadTrip_alerts (s : AppState) (t : SavedTrip) : (loadTrip s t).alerts = s.alerts := by
  cases h : t.styleConfig <;> simp [loadTrip, h]

lemma createVisualStampsAux_length (mkId : Nat → String) (rng : Nat → Nat) (now : String) :
    ∀ (i : Nat) (l : List ValidCoordinate),
      (createVisualStampsAux mkId rng now i l).length = l.length := by
  intro i l
  induction l generalizing i with
  | nil => rfl
  | cons c rest ih => simp [createVisualStampsAux, ih (i + 1)]

lemma createVisualStampsAux_getD (mkId : Nat → String) (rng : Nat → Nat) (now : String) :
    ∀ (i : Nat) (l : List ValidCoordinate) (k : Nat), k < l.length →
      (createVisualStampsAux mkId rng now i l).getD k blankStamp
        = mkDefaultStamp mkId rng now (i + k) (l.getD k blankCoord) := by
  intro i l
  induction l generalizing i with
  | nil => intro k hk; simp at hk
  | cons c rest ih =>
      intro k hk
      cases k with
      | zero => simp [createVisualStampsAux]
      | succ k' =>
          have hk' : k' < rest.length := by simpa using hk
          simp only [createVisualStampsAux, List.getD_cons_succ]
          rw [ih (i + 1) k' hk']
          have harith : i + 1 + k' = i + (k' + 1) := by omega
          rw [harith]

lemma classifyAux_length (locs : List String) :
    ∀ (i : Nat) (l : List LocationCoordinate),
      (classifyAux locs i l).1.length + (classifyAux locs i l).2.length = l.length := by
  intro i l
  induction l generalizing i with
  | nil => simp [classifyAux]
  | cons item rest ih =>
      have := ih (i + 1)
      cases h : isValidEntry item <;> simp [classifyAux, h] <;> omega

lemma classifyAux_fst (locs : List String) :
    ∀ (i : Nat) (l : List LocationCoordinate),
      (classifyAux locs i l).1 =
        ((List.enumFrom i l).filter (fun p => isValidEntry p.2)).map
          (fun p => toValidCoord p.2) := by
  intro i l
  induction l generalizing i with
  | nil => simp [classifyAux]
  | cons item rest ih =>
      cases h : isValidEntry item <;>
        simp [classifyAux, h, List.enumFrom, List.filter_cons, ih (i + 1)]

lemma classifyAux_snd (locs : List String) :
    ∀ (i : Nat) (l : List LocationCoordinate),
      (classifyAux locs i l).2 =
        ((List.enumFrom i l).filter (fun p => !isValidEntry p.2)).map
          (fun p => missingNameOf locs p.1 p.2) := by
  intro i l
  induction l generalizing i with
  | nil => simp [classifyAux]
  | cons item rest ih =>
      cases h : isValidEntry item <;>
        simp [classifyAux, h, List.enumFrom, List.filter_cons, ih (i + 1)]

/-! ## Claim theorems. -/

/-- C1 (amended): in `onGenerateRoute`, a resolver entry is classified as a
valid coordinate if and only if its `lat` and `lng` are both non-null AND
`lat ≠ 0` AND `lng ≠ 0`.  Each zero component is individually treated as a
sentinel, so in particular `(0,0)` is always classified as missing — but so
is any entry with only one zero component, contrary to the claim that
`(0,0)` is the only non-null sentinel. -/
theorem validEntryCharacterization : ∀ (item : LocationCoordinate),
    isValidEntry item = true ↔
      ∃ la ln, item.lat = some la ∧ item.lng = some ln ∧ la ≠ 0 ∧ ln ≠ 0 := by
  intro item
  obtain ⟨n, la?, ln?⟩ := item
  cases la? <;> cases ln? <;> simp [isValidEntry]

/-- C1 counterexample: an entry with non-null `lat = 0`, `lng = 10` — a pair
other than `(0,0)` — is accepted by the spec's classification rule but
classified as missing by the code. -/
theorem validEntryPairSentinelCounterexample :
    isValidEntry { name := "Gulf of Guinea", lat := some 0, lng := some 10 } = false ∧
    specValidCoordinate { name := "Gulf of Guinea", lat := some 0, lng := some 10 } = true := by
  decide

/-- C2: for every route-generation request whose resolver response has the
same length as the parsed input name list, the partition into resolved
coordinates and missing locations covers the input exactly: the two lists'
lengths sum to the input length, the valid list is the order-preserving
image of exactly the entries passing the validity guard, and the missing
list is the order-preserving image of exactly the entries failing it. -/
theorem routePartitionComplete : ∀ (rawInput : String) (rawCoords : List LocationCoordinate),
    rawCoords.length = (parseLocations rawInput).length →
    (classifyResults (parseLocations rawInput) rawCoords).1.length
        + (classifyResults (parseLocations rawInput) rawCoords).2.length
      = (parseLocations rawInput).length ∧
    (classifyResults (parseLocations rawInput) rawCoords).1
      = ((rawCoords.enum.filter fun p => isValidEntry p.2).map fun p => toValidCoord p.2) ∧
    (classifyResults (parseLocations rawInput) rawCoords).2
      = ((rawCoords.enum.filter fun p => !isValidEntry p.2).map
          fun p => missingNameOf (parseLocations rawInput) p.1 p.2) := by
  intro rawInput rawCoords h
  refine ⟨?_, ?_, ?_⟩
  · rw [classifyResults, classifyAux_length, h]
  · rw [classifyResults, classifyAux_fst, List.enum]
  · rw [classifyResults, classifyAux_snd, List.enum]

/-- Witness for C2 at the spec's worked example `"Paris, Atlantis, Rome"`
with Atlantis unresolved. -/
theorem routePartitionCompleteWitness :
    ([⟨"Paris", some 48, some 2⟩, ⟨"Atlantis", none, none⟩, ⟨"Rome", some 41, some 12⟩]
        : List LocationCoordinate).length = (parseLocations "Paris, Atlantis, Rome").length ∧
    (classifyResults (parseLocations "Paris, Atlantis, Rome")
          [⟨"Paris", some 48, some 2⟩, ⟨"Atlantis", none, none⟩, ⟨"Rome", some 41, some 12⟩]).1.length
      + (classifyResults (parseLocations "Paris, Atlantis, Rome")
          [⟨"Paris", some 48, some 2⟩, ⟨"Atlantis", none, none⟩, ⟨"Rome", some 41, some 12⟩]).2.length
      = (parseLocations "Paris, Atlantis, Rome").length :=
  ⟨by decide,
   (routePartitionComplete "Paris, Atlantis, Rome"
      [⟨"Paris", some 48, some 2⟩, ⟨"Atlantis", none, none⟩, ⟨"Rome", some 41, some 12⟩]
      (by decide)).1⟩

/-- C7: trip deletion is two-phase.  `requestDeleteTrip` only records the
pending id and mutates no trip data; `confirmDeleteTrip` requires a prior
request — its guard `if (!idToDelete) return;` is a JavaScript falsy test,
so it is a no-op both when no id is pending and when the pending id is the
empty string (falsy, i.e. "no id") — and with a non-empty pending id it
removes exactly that id from the in-memory list and writes the filtered
list to durable storage, clearing the pending id; `cancelDeleteTrip` only
clears the pending id and changes no trip data. -/
theorem deleteTripFlow : ∀ (s : AppState) (i : String),
    requestDeleteTrip s i = { s with tripToDelete := some i } ∧
    confirmDeleteTrip { s with tripToDelete := none } = { s with tripToDelete := none } ∧
    confirmDeleteTrip { s with tripToDelete := some "" } = { s with tripToDelete := some "" } ∧
    (i ≠ "" →
      confirmDeleteTrip { s with tripToDelete := some i } =
        { s with savedTrips := s.savedTrips.filter (fun t => t.id != i)
                 storage := some (s.savedTrips.filter (fun t => t.id != i))
                 tripToDelete := none }) ∧
    cancelDeleteTrip s = { s with tripToDelete := none } := by
  intro s i
  refine ⟨rfl, rfl, ?_, ?_, rfl⟩
  · simp [confirmDeleteTrip]
  · intro hi
    simp [confirmDeleteTrip, hi]

/-- Witness for C7: confirming a pending non-empty id `"a"` removes the trip
with that id from the library and rewrites durable storage. -/
theorem deleteTripFlowWitness :
    ("a" : String) ≠ "" ∧
    confirmDeleteTrip { sampleStateWithTrip with tripToDelete := some "a" } =
      { sampleStateWithTrip with
        savedTrips := sampleStateWithTrip.savedTrips.filter (fun t => t.id != "a")
        storage := some (sampleStateWithTrip.savedTrips.filter (fun t => t.id != "a"))
        tripToDelete := none } :=
  ⟨by decide, (deleteTripFlow sampleStateWithTrip "a").2.2.2.1 (by decide)⟩

/-- C10: `generateCustomIcon` never propagates a failure — whenever the
analysis step or the image-generation step fails, it returns the original
uploaded image re-encoded as a data URI with the original mime type. -/
theorem generateCustomIconFallback : ∀ (b m : String) (a g : Except String String),
    ((∃ e, a = Except.error e) ∨ (∃ e, g = Except.error e)) →
    generateCustomIcon b m a g = "data:" ++ m ++ ";base64," ++ b := by
  intro b m a g h
  cases a with
  | error ea => rfl
  | ok va =>
      cases g with
      | error eg => rfl
      | ok vg =>
          exfalso
          rcases h with ⟨e, he⟩ | ⟨e, he⟩ <;> simp at he

/-- Witness for C10: a quota failure of the analysis step falls back to the
original image. -/
theorem generateCustomIconFallbackWitness :
    (∃ e, (Except.error "quota" : Except String String) = Except.error e) ∧
    generateCustomIcon "AAAA" "image/png" (Except.error "quota") (Except.ok "bytes")
      = "data:image/png;base64,AAAA" :=
  ⟨⟨"quota", rfl⟩,
   generateCustomIconFallback "AAAA" "image/png" (Except.error "quota") (Except.ok "bytes")
     (Or.inl ⟨"quota", rfl⟩)⟩

/-- C3 (amended): saving the current trip and then loading the resulting
`SavedTrip` reproduces the coordinates, the stamps and the whole style
configuration by value; the missing-location list, however, is not part of
a `SavedTrip` and is reset to the empty list by `loadTrip`, so it is NOT
reproduced.  (`customIconUrl ≠ some ""`: the empty string, never produced
by the application, would be swallowed by the JavaScript `||` falsiness
coercions on the save path.) -/
theorem saveLoadRoundTrip : ∀ (s : AppState) (newId : String) (now : Nat) (persistOk : Bool),
    s.routeCoordinates ≠ [] → s.customIconUrl ≠ some "" →
    (saveTrip s newId now persistOk).savedTrips = newTripOf s newId now :: s.savedTrips ∧
    (loadTrip (saveTrip s newId now persistOk) (newTripOf s newId now)).routeCoordinates
      = s.routeCoordinates ∧
    (loadTrip (saveTrip s newId now persistOk) (newTripOf s newId now)).stamps = s.stamps ∧
    (loadTrip (saveTrip s newId now persistOk) (newTripOf s newId now)).mapStyle = s.mapStyle ∧
    (loadTrip (saveTrip s newId now persistOk) (newTripOf s newId now)).routeColor = s.routeColor ∧
    (loadTrip (saveTrip s newId now persistOk) (newTripOf s newId now)).routeWeight = s.routeWeight ∧
    (loadTrip (saveTrip s newId now persistOk) (newTripOf s newId now)).customIconUrl
      = s.customIconUrl ∧
    (loadTrip (saveTrip s newId now persistOk) (newTripOf s newId now)).mapHeight = s.mapHeight ∧
    (loadTrip (saveTrip s newId now persistOk) (newTripOf s newId now)).missingLocations = [] := by
  intro s newId now persistOk h hIcon
  have hl : ¬s.routeCoordinates.length = 0 := by simpa using h
  cases persistOk <;>
    refine ⟨?_, ?_, ?_, ?_, ?_, ?_, ?_, ?_, ?_⟩ <;>
      simp [saveTrip, loadTrip, newTripOf, hl, truthyOrNone_of_ne _ hIcon]

/-- Witness for C3 on the concrete sample state. -/
theorem saveLoadRoundTripWitness :
    sampleState.routeCoordinates ≠ [] ∧ sampleState.customIconUrl ≠ some "" ∧
    (loadTrip (saveTrip sampleState "t1" 5 true) (newTripOf sampleState "t1" 5)).routeCoordinates
      = sampleState.routeCoordinates :=
  ⟨by decide, by decide,
   (saveLoadRoundTrip sampleState "t1" 5 true (by decide) (by decide)).2.1⟩

/-- C3 counterexample: a non-empty Route Store whose missing-location list is
`["Atlantis"]` comes back from the save/load round trip with an EMPTY
missing-location list, so the round trip does not reproduce an equivalent
Route Store as claimed. -/
theorem saveLoadMissingListCounterexample :
    sampleState.routeCoordinates ≠ [] ∧
    sampleState.missingLocations = ["Atlantis"] ∧
    (loadTrip (saveTrip sampleState "t1" 5 true) (newTripOf sampleState "t1" 5)).missingLocations
      = [] ∧
    (loadTrip (saveTrip sampleState "t1" 5 true) (newTripOf sampleState "t1" 5)).missingLocations
      ≠ sampleState.missingLocations := by
  decide

/-- C4 (amended): `onImportTrip` rejects a parsed document with the format
error exactly when the document fails the code's gate, which requires only
that the `coordinates` member be TRUTHY (any non-falsy value, not
necessarily an array) and that the `stamps` member be an array
(`Array.isArray`). -/
theorem importValidationGate : ∀ (s : AppState) (doc : Json) (freshId : String)
    (persistOk : Bool),
    ((onImportTrip s (some doc) freshId persistOk).alerts
        = s.alerts ++ ["Failed to import trip file. Invalid or Corrupt JSON."])
      ↔ ¬(truthyOpt (getField doc "coordinates") = true
            ∧ isArrayOpt (getField doc "stamps") = true) := by
  intro s doc freshId persistOk
  cases hA : importAccepted doc with
  | false =>
      have hne : ¬(truthyOpt (getField doc "coordinates") = true
          ∧ isArrayOpt (getField doc "stamps") = true) := by
        rintro ⟨h1, h2⟩
        rw [importAccepted, h1, h2] at hA
        simp at hA
      simp [onImportTrip, hA, hne]
  | true =>
      have hand := hA
      rw [importAccepted, Bool.and_eq_true] at hand
      constructor
      · intro hEq
        exfalso
        cases persistOk with
        | true =>
            have h1 : (onImportTrip s (some doc) freshId true).alerts = s.alerts := by
              simp [onImportTrip, hA, loadTrip_alerts]
            rw [h1] at hEq
            have h2 := congrArg List.length hEq
            simp at h2
        | false =>
            have h1 : (onImportTrip s (some doc) freshId false).alerts
                = s.alerts ++ ["Trip loaded! (Storage full - not added to History list)"] := by
              simp [onImportTrip, hA, loadTrip_alerts]
            rw [h1] at hEq
            have h2 := List.append_cancel_left hEq
            exact absurd h2 (by decide)
      · intro hn
        exact absurd hand hn

/-- C4 counterexample: a document whose `coordinates` member is the string
`"not a sequence"` (truthy, but not an array) and whose `stamps` member is
an array is ACCEPTED by the code's gate, while the claimed validation —
both members type-checked as sequences — rejects it. -/
theorem importValidationCounterexample :
    importAccepted (Json.obj [("coordinates", Json.str "not a sequence"),
        ("stamps", Json.arr [])]) = true ∧
    specImportCheck (Json.obj [("coordinates", Json.str "not a sequence"),
        ("stamps", Json.arr [])]) = false := by
  decide

/-- C5 (code bug): `onUploadIcon` evaluated at the failing input — a small
file whose `readAsDataURL` result `"data:application/octet-stream;base64,"`
(a 0-byte file) fails the data-URL regex.  The `throw` happens inside the
asynchronous `onload` callback, which the handler's `try`/`catch` (whose
`catch` block exists precisely to reset the flag) does not cover, so
`isGeneratingIcon` is left `true` and the status stays at the in-progress
message: the busy flag is NOT reset on this execution path. -/
theorem uploadIconFlagStuckBug :
    sampleState.isGeneratingIcon = false ∧
    (onUploadIcon sampleState 0 "data:application/octet-stream;base64,"
        (Except.ok "subject") (Except.ok "bytes")).isGeneratingIcon = true ∧
    (onUploadIcon sampleState 0 "data:application/octet-stream;base64,"
        (Except.ok "subject") (Except.ok "bytes")).statusMessage
      = "Designing your custom icon..." := by
  decide

/-- C6: when the durable write of `saveTrip` fails (quota exceeded), the
in-memory saved-trip list has nevertheless been updated with the new trip
prepended, durable storage is unchanged, and the distinct storage-full
warning is surfaced. -/
theorem saveTripQuotaFallback : ∀ (s : AppState) (newId : String) (now : Nat),
    s.routeCoordinates ≠ [] →
    (saveTrip s newId now false).savedTrips = newTripOf s newId now :: s.savedTrips ∧
    (saveTrip s newId now false).storage = s.storage ∧
    (saveTrip s newId now false).alerts = s.alerts ++
      ["Storage Full! This trip is saved for this session, but will disappear on refresh. Please download the Data Config to save it permanently."] := by
  intro s newId now h
  have hl : ¬s.routeCoordinates.length = 0 := by simpa using h
  refine ⟨?_, ?_, ?_⟩ <;> simp [saveTrip, hl]

/-- Witness for C6 on the concrete sample state. -/
theorem saveTripQuotaFallbackWitness :
    sampleState.routeCoordinates ≠ [] ∧
    (saveTrip sampleState "id1" 7 false).storage = sampleState.storage :=
  ⟨by decide, (saveTripQuotaFallback sampleState "id1" 7 (by decide)).2.1⟩

/-- C8: after a resolution yielding at least one valid coordinate,
`createVisualStamps` produces exactly one stamp per resolved coordinate in
the same order; the `k`-th stamp carries the `k`-th coordinate's name, its
color is the palette entry at index `k` modulo the palette size, and its
rotation is a whole number of degrees in the range `-15..15` (the code in
fact never produces `15`: `Math.floor(Math.random()*30) - 15 ≤ 14`). -/
theorem defaultStampsSpec : ∀ (coords : List ValidCoordinate) (mkId : Nat → String)
    (rng : Nat → Nat) (now : String),
    coords ≠ [] → (∀ j, rng j < 30) →
    (createVisualStamps coords mkId rng now).length = coords.length ∧
    ∀ k, k < coords.length →
      ((createVisualStamps coords mkId rng now).getD k blankStamp).name
        = (coords.getD k blankCoord).name ∧
      ((createVisualStamps coords mkId rng now).getD k blankStamp).color
        = stampColors.getD (k % stampColors.length) "" ∧
      -15 ≤ ((createVisualStamps coords mkId rng now).getD k blankStamp).rotation ∧
      ((createVisualStamps coords mkId rng now).getD k blankStamp).rotation ≤ 15 := by
  intro coords mkId rng now hne hrng
  constructor
  · exact createVisualStampsAux_length mkId rng now 0 coords
  · intro k hk
    have hg := createVisualStampsAux_getD mkId rng now 0 coords k hk
    rw [createVisualStamps, hg]
    simp only [Nat.zero_add]
    have h30 := hrng k
    refine ⟨rfl, rfl, ?_, ?_⟩
    · simp [mkDefaultStamp]
    · simp [mkDefaultStamp]
      omega

/-- Witness for C8 with a one-stop route and a constant random source. -/
theorem defaultStampsSpecWitness :
    ([({ name := "Paris", lat := 48, lng := 2 } : ValidCoordinate)] ≠ []) ∧
    (∀ j : Nat, constRng7 j < 30) ∧
    (createVisualStamps [{ name := "Paris", lat := 48, lng := 2 }]
        constWId constRng7 "1/1/2026").length = 1 :=
  ⟨by decide, fun _ => by norm_num [constRng7],
   (defaultStampsSpec [{ name := "Paris", lat := 48, lng := 2 }]
      constWId constRng7 "1/1/2026" (by decide) (fun _ => by norm_num [constRng7])).1⟩

/-- C9: when an import document fails the validation gate, the import is
rejected with the format error and nothing is altered — the saved-trip
list, durable storage, the whole active Route Store and style configuration
are exactly as before; only the alert is emitted. -/
theorem importRejectionPreservesState : ∀ (s : AppState) (doc : Json) (freshId : String)
    (persistOk : Bool),
    importAccepted doc = false →
    (onImportTrip s (some doc) freshId persistOk).savedTrips = s.savedTrips ∧
    (onImportTrip s (some doc) freshId persistOk).storage = s.storage ∧
    (onImportTrip s (some doc) freshId persistOk).routeCoordinates = s.routeCoordinates ∧
    (onImportTrip s (some doc) freshId persistOk).stamps = s.stamps ∧
    (onImportTrip s (some doc) freshId persistOk).missingLocations = s.missingLocations ∧
    (onImportTrip s (some doc) freshId persistOk).locationInput = s.locationInput ∧
    (onImportTrip s (some doc) freshId persistOk).mapStyle = s.mapStyle ∧
    (onImportTrip s (some doc) freshId persistOk).routeColor = s.routeColor ∧
    (onImportTrip s (some doc) freshId persistOk).routeWeight = s.routeWeight ∧
    (onImportTrip s (some doc) freshId persistOk).customIconUrl = s.customIconUrl ∧
    (onImportTrip s (some doc) freshId persistOk).mapHeight = s.mapHeight ∧
    (onImportTrip s (some doc) freshId persistOk).alerts
      = s.alerts ++ ["Failed to import trip file. Invalid or Corrupt JSON."] := by
  intro s doc freshId persistOk h
  refine ⟨?_, ?_, ?_, ?_, ?_, ?_, ?_, ?_, ?_, ?_, ?_, ?_⟩ <;> simp [onImportTrip, h]

/-- Witness for C9 at the spec's example: a document lacking the `stamps`
member fails the gate and leaves the saved-trip list untouched. -/
theorem importRejectionPreservesStateWitness :
    importAccepted (Json.obj [("coordinates", Json.arr [])]) = false ∧
    (onImportTrip sampleState (some (Json.obj [("coordinates", Json.arr [])])) "f" true).savedTrips
      = sampleState.savedTrips :=
  ⟨by decide,
   (importRejectionPreservesState sampleState (Json.obj [("coordinates", Json.arr [])]) "f" true
      (by decide)).1⟩

end TravelRoute
